import Mathlib

/-!
# Verification of the QuestDB MCP server adaptation layer

Shallow embedding of the request/response adaptation layer of the
`questdb-mcp` repository: the `QuestDBClient` adapter
(`src/questdb-client.ts`) and the four tool handlers
(`src/tools/query.ts`, `insert.ts`, `list-tables.ts`,
`describe-table.ts`).

Modelling conventions:
* JavaScript strings are Lean `String`s; `trim`, `toUpperCase`,
  `startsWith` are embedded below (`jsTrim`, `jsToUpperCase`,
  `jsStartsWith`) following their JS semantics on the character list.
* JavaScript values reaching the adapter are modelled by `JSValue`
  (insert records) and `JSON` (parsed query results).  A JS number is a
  `JSNum`: a finite value (modelled exactly as a rational), `nan`, or an
  infinity; `Number.isInteger` is `jsNumIsInteger`.
* Values whose `typeof` is none of `string` / `number` / `boolean` are
  modelled by the `JSValue.vOther` constructor carrying their JS
  `String(value)` form, which is the only use the adapter makes of them.
* Network effects are reified: `query` produces the `HttpRequest` it
  would fetch (an `Except.error` means the call was rejected before any
  network access), and `insert` produces the `RowBuild` it hands to the
  line-protocol sender.  The external sender and the HTTP response
  handling are outside the adapter logic being specified.
-/

namespace QuestDBMCP

/-- The JS whitespace characters relevant to `String.prototype.trim`
(space, tab, LF, CR, VT, FF, NBSP, BOM, line/paragraph separator). -/
def isJsWhitespaceChar (ch : Char) : Bool :=
  ch == ' ' || ch == '\t' || ch == '\n' || ch == '\r' ||
  ch == '\x0b' || ch == '\x0c' || ch == ' ' ||
  ch == ' ' || ch == ' ' || ch == '﻿'

/-- Drop JS whitespace from both ends of a character list
(`String.prototype.trim`). -/
def jsTrimList (l : List Char) : List Char :=
  ((l.dropWhile isJsWhitespaceChar).reverse.dropWhile isJsWhitespaceChar).reverse

/-- JS `query.trim()`. -/
def jsTrim (s : String) : String :=
  String.mk (jsTrimList s.data)

/-- JS `String.prototype.toUpperCase` (character-wise upper-casing; the
adapter only compares against the ASCII word `"SELECT"`). -/
def jsToUpperCase (s : String) : String :=
  String.mk (s.data.map Char.toUpper)

/-- `pat.isPrefixOf s` on character lists, written out so that prefix
facts can be proved by structural induction. -/
def startsWithChars : List Char → List Char → Bool
  | [], _ => true
  | _ :: _, [] => false
  | p :: ps, c :: cs => p == c && startsWithChars ps cs

/-- JS `s.startsWith(pat)`. -/
def jsStartsWith (s pat : String) : Bool :=
  startsWithChars pat.data s.data

/-- Connection configuration (`QuestDBConfig` in `src/types.ts`).
Optional fields model possibly-undefined JS values. -/
structure QuestDBConfig where
  host : String
  port : Nat
  username : Option String := none
  password : Option String := none
  autoFlushRows : Option Nat := none
  autoFlushInterval : Option Nat := none
deriving DecidableEq, Repr

/-- JS truthiness of a possibly-undefined string (`undefined` and `""`
are falsy). -/
def jsTruthyStrOpt : Option String → Bool
  | none => false
  | some s => s != ""

/-- JS truthiness of a possibly-undefined number (`undefined` and `0`
are falsy). -/
def jsTruthyNatOpt : Option Nat → Bool
  | none => false
  | some n => n != 0

/-- The base64 alphabet used by `Buffer.toString("base64")`. -/
def base64Alphabet : List Char :=
  "ABCDEFGHIJKLMNOPQRSTUVWXYZabcdefghijklmnopqrstuvwxyz0123456789+/".data

/-- Character of the base64 alphabet at a 6-bit index. -/
def base64Digit (n : Nat) : Char :=
  base64Alphabet.getD n '?'

/-- Standard base64 encoding of a byte list (values `< 256`), with
padding, as produced by `Buffer.toString("base64")`. -/
def base64EncodeBytes : List Nat → List Char
  | [] => []
  | [b1] =>
    [base64Digit (b1 / 4), base64Digit (b1 % 4 * 16), '=', '=']
  | [b1, b2] =>
    [base64Digit (b1 / 4), base64Digit (b1 % 4 * 16 + b2 / 16),
     base64Digit (b2 % 16 * 4), '=']
  | b1 :: b2 :: b3 :: rest =>
    base64Digit (b1 / 4) :: base64Digit (b1 % 4 * 16 + b2 / 16) ::
    base64Digit (b2 % 16 * 4 + b3 / 64) :: base64Digit (b3 % 64) ::
    base64EncodeBytes rest

/-- UTF-8 bytes of one character. -/
def utf8BytesOfChar (c : Char) : List Nat :=
  let n := c.toNat
  if n < 0x80 then [n]
  else if n < 0x800 then [0xC0 + n / 64, 0x80 + n % 64]
  else if n < 0x10000 then
    [0xE0 + n / 4096, 0x80 + n / 64 % 64, 0x80 + n % 64]
  else
    [0xF0 + n / 262144, 0x80 + n / 4096 % 64, 0x80 + n / 64 % 64,
     0x80 + n % 64]

/-- JS `Buffer.from(s).toString("base64")`: base64 over the UTF-8 bytes
of `s`. -/
def base64Encode (s : String) : String :=
  String.mk (base64EncodeBytes ((s.data.map utf8BytesOfChar).flatten))

/-- The `Authorization` header value computed in `QuestDBClient.query`
(lines 75-78): a Basic credential exactly when both `username` and
`password` are truthy, else `undefined`. -/
def authHeaderOf (c : QuestDBConfig) : Option String :=
  if jsTruthyStrOpt c.username && jsTruthyStrOpt c.password then
    some ("Basic " ++ base64Encode (c.username.getD "" ++ ":" ++ c.password.getD ""))
  else
    none

/-- The header list passed to `fetch`: `authHeader ? { Authorization: authHeader } : {}`. -/
def requestHeaders (c : QuestDBConfig) : List (String × String) :=
  match authHeaderOf c with
  | some v => [("Authorization", v)]
  | none => []

/-- The sender connection string built by
`QuestDBClient.buildConfigString` (lines 40-56). -/
def buildConfigString (c : QuestDBConfig) : String :=
  let config := "http::addr=" ++ c.host ++ ":" ++ toString c.port
  let config :=
    if jsTruthyStrOpt c.username && jsTruthyStrOpt c.password then
      config ++ ";username=" ++ c.username.getD "" ++ ";password=" ++ c.password.getD ""
    else config
  let config :=
    if jsTruthyNatOpt c.autoFlushRows then
      config ++ ";auto_flush_rows=" ++ toString (c.autoFlushRows.getD 0)
    else config
  let config :=
    if jsTruthyNatOpt c.autoFlushInterval then
      config ++ ";auto_flush_interval=" ++ toString (c.autoFlushInterval.getD 0)
    else config
  config

/-- The auto-flush tail of the connection string (the two final
conditional appends of `buildConfigString`), named so theorems can talk
about the credential part of the string independently. -/
def flushSuffix (c : QuestDBConfig) : String :=
  (if jsTruthyNatOpt c.autoFlushRows then
      ";auto_flush_rows=" ++ toString (c.autoFlushRows.getD 0)
    else "") ++
  (if jsTruthyNatOpt c.autoFlushInterval then
      ";auto_flush_interval=" ++ toString (c.autoFlushInterval.getD 0)
    else "")

/-- The HTTP GET request `QuestDBClient.query` issues against
`http://host:port/exec`. -/
structure HttpRequest where
  host : String
  port : Nat
  path : String
  queryParams : List (String × String)
  headers : List (String × String)
deriving DecidableEq, Repr

/-- `QuestDBClient.query` up to its network call (lines 64-83): the
SELECT-only safety gate, then the GET request it would fetch.  An
`Except.error` is a rejection before any network access. -/
def query (c : QuestDBConfig) (q : String) (format : String) :
    Except String HttpRequest :=
  if !(jsStartsWith (jsToUpperCase (jsTrim q)) "SELECT") then
    .error "Only SELECT queries are allowed for safety reasons"
  else
    .ok { host := c.host, port := c.port, path := "/exec",
          queryParams := [("query", q), ("fmt", format)],
          headers := requestHeaders c }

/-- The identifier test `/^[a-zA-Z_][a-zA-Z0-9_]*$/.test(table)` of
`QuestDBClient.describeTable` (line 178), written over the character
list with the regex's ASCII classes. -/
def isValidTableName (table : String) : Bool :=
  match table.data with
  | [] => false
  | c :: cs =>
    (('a' ≤ c && c ≤ 'z') || ('A' ≤ c && c ≤ 'Z') || c == '_') &&
    cs.all (fun d =>
      ('a' ≤ d && d ≤ 'z') || ('A' ≤ d && d ≤ 'Z') ||
      ('0' ≤ d && d ≤ '9') || d == '_')

/-- `QuestDBClient.describeTable` (lines 176-184): identifier
validation, then the single introspection query issued through
`query`. -/
def describeTable (c : QuestDBConfig) (table : String) :
    Except String HttpRequest :=
  if !(isValidTableName table) then
    .error ("Invalid table name: " ++ table)
  else
    query c ("SELECT * FROM table_columns('" ++ table ++ "')") "json"

/-- A JavaScript number as seen by the insert type dispatch: a finite
double (held exactly as a rational), `NaN`, or an infinity. -/
inductive JSNum where
  | fin (q : ℚ)
  | nan
  | posInf
  | negInf
deriving DecidableEq, Repr

/-- JS `Number.isInteger` over `JSNum` (`NaN` and infinities are not
integers). -/
def jsNumIsInteger : JSNum → Bool
  | .fin q => q.den == 1
  | _ => false

/-- A JavaScript value appearing in an insert record.  `vOther` covers
every value whose `typeof` is none of `string` / `number` / `boolean`
(objects, arrays, …), carrying its `String(value)` form — the only way
the adapter consumes such values. -/
inductive JSValue where
  | vNull
  | vUndefined
  | vStr (s : String)
  | vNum (n : JSNum)
  | vBool (b : Bool)
  | vOther (stringified : String)
deriving DecidableEq, Repr

/-- `typeof value === "number"`. -/
def JSValue.isNumber : JSValue → Bool
  | .vNum _ => true
  | _ => false

/-- A column call on the `@questdb/nodejs-client` row builder.  The
sender API offers `symbol`, `stringColumn`, `booleanColumn`,
`floatColumn`, `intColumn` (and timestamp columns); the adapter uses
only a subset, which the theorems below pin down. -/
inductive Column where
  | symbol (key : String) (value : String)
  | stringColumn (key : String) (value : String)
  | booleanColumn (key : String) (value : Bool)
  | floatColumn (key : String) (value : JSNum)
  | intColumn (key : String) (value : JSNum)
deriving DecidableEq, Repr

/-- The column name a column call targets. -/
def Column.key : Column → String
  | .symbol k _ => k
  | .stringColumn k _ => k
  | .booleanColumn k _ => k
  | .floatColumn k _ => k
  | .intColumn k _ => k

/-- Whether a column call is the free-text `stringColumn` call. -/
def Column.isStringColumn : Column → Bool
  | .stringColumn _ _ => true
  | _ => false

/-- The skip test of the insert loop (line 119):
`value === null || value === undefined`. -/
def isNullish : JSValue → Bool
  | .vNull => true
  | .vUndefined => true
  | _ => false

/-- The per-field body of the insert loop (`questdb-client.ts` lines
118-143): `null`/`undefined` are skipped (`none`), then `typeof`
dispatch — string → `symbol`, integral number → `intColumn`,
non-integral number → `floatColumn`, boolean → `booleanColumn`,
anything else → `symbol` of its `String(value)` form. -/
def columnFor (key : String) (value : JSValue) : Option Column :=
  match value with
  | .vNull => none
  | .vUndefined => none
  | .vStr s => some (.symbol key s)
  | .vNum n =>
    if jsNumIsInteger n then some (.intColumn key n)
    else some (.floatColumn key n)
  | .vBool b => some (.booleanColumn key b)
  | .vOther s => some (.symbol key s)

/-- An insert record: the `Object.entries` view of the `data` argument
(ordered key/value pairs; JS object keys are unique, so well-formed
records have pairwise-distinct keys). -/
abbrev InsertRecord := List (String × JSValue)

/-- First binding of a key in a record (JS property read on an object
with unique keys). -/
def jsLookup (record : InsertRecord) (key : String) : Option JSValue :=
  match record with
  | [] => none
  | (k, v) :: rest => if k == key then some v else jsLookup rest key

/-- The columns the insert loop emits: the rest-destructuring
`const { timestamp: _, ...columnData } = data` removes the `timestamp`
key, then each remaining entry yields at most one column call. -/
def insertColumns (record : InsertRecord) : List Column :=
  (record.filter (fun kv => kv.1 != "timestamp")).filterMap
    (fun kv => columnFor kv.1 kv.2)

/-- The `data.timestamp !== undefined` extraction: the `timestamp`
field when present and not `undefined`. -/
def tsField (record : InsertRecord) : Option JSValue :=
  match jsLookup record "timestamp" with
  | some .vUndefined => none
  | x => x

/-- The timestamp coercion of `insert` (lines 106-109):
a number is used directly; any other present value goes through
`Date.parse` (the `dateParse` oracle: `some t` for a parseable date
string-coercion yielding epoch-milliseconds `t`, `none` for `NaN`).
No error is raised here. -/
def coerceTimestamp (dateParse : JSValue → Option ℤ) :
    Option JSValue → Option JSNum
  | none => none
  | some (.vNum n) => some n
  | some v =>
    match dateParse v with
    | some t => some (.fin (t : ℚ))
    | none => some .nan

/-- How the row is closed (lines 145-150): `at(timestamp, "ms")` when a
timestamp was extracted, else `atNow()`. -/
inductive RowClose where
  | atMs (t : JSNum)
  | atNow
deriving DecidableEq, Repr

/-- The row handed to the sender by one `insert` call, followed by a
`flush`. -/
structure RowBuild where
  senderId : Nat
  table : String
  columns : List Column
  closeAt : RowClose
deriving DecidableEq, Repr

/-- Adapter connection state: the lazily-created sender
(`QuestDBClient.sender`, `null` ↔ `none`), with a generation counter to
distinguish fresh senders. -/
structure ClientState where
  sender : Option Nat
  nextId : Nat
deriving DecidableEq, Repr

/-- `QuestDBClient.getSender` (lines 22-35): reuse the live sender or
create one from the connection string. -/
def getSender (st : ClientState) : Nat × ClientState :=
  match st.sender with
  | some s => (s, st)
  | none => (st.nextId, { sender := some st.nextId, nextId := st.nextId + 1 })

/-- `QuestDBClient.insert` (lines 103-153): get-or-create the sender,
extract and coerce the timestamp, drop the `timestamp` key, emit one
column call per remaining non-nullish field, close the row, flush.
The adapter's own insert logic contains no throw site — failures can
only originate inside the external sender calls, which are outside
this embedding. -/
def insert (dateParse : JSValue → Option ℤ) (st : ClientState)
    (table : String) (record : InsertRecord) : ClientState × RowBuild :=
  let s := (getSender st).1
  let st' := (getSender st).2
  let ts := coerceTimestamp dateParse (tsField record)
  (st',
   { senderId := s, table := table, columns := insertColumns record,
     closeAt := match ts with
       | some n => .atMs n
       | none => .atNow })

/-- `QuestDBClient.close` (lines 189-203).  The `senderOutcome` oracle
is the result of the external `flush(); close()` pair; a failure is
caught and logged, and in every branch the sender reference ends up
absent.  The `Except` result type records that `close` itself never
propagates an error. -/
def close (senderOutcome : Except String Unit) (st : ClientState) :
    Except String ClientState :=
  match st.sender with
  | none => .ok st
  | some _ =>
    match senderOutcome with
    | .ok _ => .ok { st with sender := none }
    | .error _ => .ok { st with sender := none }

/-- A parsed JavaScript value as handled by the tool handlers: the
result of `response.json()` plus the `undefined` produced by missing
property reads and out-of-range indexing. -/
inductive JSON where
  | nul
  | undefined
  | bool (b : Bool)
  | num (q : ℚ)
  | str (s : String)
  | arr (elems : List JSON)
  | obj (fields : List (String × JSON))

/-- JS truthiness. -/
def jsTruthy : JSON → Bool
  | .nul => false
  | .undefined => false
  | .bool b => b
  | .num q => q != 0
  | .str s => s != ""
  | .arr _ => true
  | .obj _ => true

/-- JS `a || b`. -/
def jsOr (a b : JSON) : JSON :=
  if jsTruthy a then a else b

/-- JS property read `v.key`: the first binding in an object (keys are
unique in parsed JSON), `undefined` on any non-object.  (On `null` /
`undefined` JS would throw; the adapter only reads properties behind
truthiness guards or on parsed results, so the distinction never
surfaces here.) -/
def getField (v : JSON) (key : String) : JSON :=
  match v with
  | .obj fields =>
    match fields.lookup key with
    | some w => w
    | none => .undefined
  | _ => .undefined

/-- JS index read `v[i]`: array element, single-character string for a
string, `undefined` otherwise or out of range. -/
def jsIndex (v : JSON) (i : Nat) : JSON :=
  match v with
  | .arr xs => xs.getD i .undefined
  | .str s =>
    match s.data.get? i with
    | some ch => .str (String.mk [ch])
    | none => .undefined
  | _ => .undefined

/-- JS optional chain `v?.length`: short-circuits to `undefined` on
`null`/`undefined`; `length` of arrays and strings; a plain property
read on objects; `undefined` on other primitives. -/
def jsOptChainLength (v : JSON) : JSON :=
  match v with
  | .nul => .undefined
  | .undefined => .undefined
  | .arr xs => .num xs.length
  | .str s => .num s.length
  | .obj fields => getField (.obj fields) "length"
  | _ => .undefined

/-- `Array.isArray`. -/
def isArrayB : JSON → Bool
  | .arr _ => true
  | _ => false

/-- `QuestDBClient.listTables` result shaping (lines 159-169): given
the parsed result of the fixed introspection query, project `row[0]`
from each dataset row when `result && result.dataset &&
Array.isArray(result.dataset)`, else return `[]`.  Total: no shape
mismatch throws. -/
def listTablesProject (result : JSON) : List JSON :=
  if jsTruthy result then
    let ds := getField result "dataset"
    if jsTruthy ds then
      match ds with
      | .arr rows => rows.map (fun row => jsIndex row 0)
      | _ => []
    else []
  else []

/-- The `content` entry of a tool response: either
`JSON.stringify(v, null, 2)` of a value, or a plain string body. -/
inductive ContentText where
  | stringified (v : JSON)
  | raw (s : String)

/-- The response envelope every tool handler returns:
`{content: [{type: "text", text}], structuredContent?, isError?}`. -/
structure ToolResponse where
  content : ContentText
  structuredContent : Option (List (String × JSON))
  isError : Bool

/-- The `structuredOutput` object of the query tool on the json path
(`tools/query.ts` lines 114-119), with the JS `||` fallbacks. -/
def queryStructuredOutput (q : String) (result : JSON) :
    List (String × JSON) :=
  [("query", .str q),
   ("dataset", jsOr (getField result "dataset") (.arr [])),
   ("count", jsOr (getField result "count")
      (jsOr (jsOptChainLength (getField result "dataset")) (.num 0))),
   ("columns", jsOr (getField result "columns") (.arr []))]

/-- The `result as string` cast on the csv path. -/
def jsAsString : JSON → String
  | .str s => s
  | _ => ""

/-- The query tool handler (`tools/query.ts` lines 108-152).  `format`
is the optional input (`none` when omitted; the parameter default is
`"json"`), `outcome` the result of the adapter call (csv bodies are
`JSON.str`).  Returns the format string passed to `client.query`
(`format || "json"`) together with the response envelope. -/
def queryToolCall (q : String) (format : Option String)
    (outcome : Except String JSON) : String × ToolResponse :=
  let fmt := format.getD "json"
  let clientFmt := if fmt == "" then "json" else fmt
  let resp : ToolResponse :=
    match outcome with
    | .error msg =>
      { content := .raw ("Error: " ++ msg), structuredContent := none,
        isError := true }
    | .ok result =>
      if fmt == "json" then
        { content := .stringified result,
          structuredContent := some (queryStructuredOutput q result),
          isError := false }
      else
        { content := .raw (jsAsString result), structuredContent := none,
          isError := false }
  (clientFmt, resp)

/-- The insert tool handler (`tools/insert.ts` lines 27-58). -/
def insertToolCall (table : String) (outcome : Except String Unit) :
    ToolResponse :=
  match outcome with
  | .ok _ =>
    let message := "Successfully inserted data into table '" ++ table ++ "'"
    { content := .raw message,
      structuredContent := some
        [("success", .bool true), ("table", .str table),
         ("message", .str message)],
      isError := false }
  | .error msg =>
    { content := .raw ("Error: " ++ msg), structuredContent := none,
      isError := true }

/-- The list_tables tool handler (`tools/list-tables.ts` lines
49-78). -/
def listTablesToolCall (outcome : Except String (List JSON)) :
    ToolResponse :=
  match outcome with
  | .ok tables =>
    let output : List (String × JSON) :=
      [("tables", .arr tables), ("count", .num tables.length)]
    { content := .stringified (.obj output),
      structuredContent := some output, isError := false }
  | .error msg =>
    { content := .raw ("Error: " ++ msg), structuredContent := none,
      isError := true }

/-- The describe_table tool handler (`tools/describe-table.ts` lines
23-52): `columns` is `result.dataset || result`. -/
def describeTableToolCall (table : String)
    (outcome : Except String JSON) : ToolResponse :=
  match outcome with
  | .ok result =>
    { content := .stringified result,
      structuredContent := some
        [("table", .str table),
         ("columns", jsOr (getField result "dataset") result)],
      isError := false }
  | .error msg =>
    { content := .raw ("Error: " ++ msg), structuredContent := none,
      isError := true }

/-! ## Helper lemmas -/

theorem dropWhile_cons_false (p : Char → Bool) (x : Char) (l : List Char)
    (h : p x = false) : List.dropWhile p (x :: l) = x :: l := by
  simp [List.dropWhile, h]

theorem jsTrimList_eq_self (c d : Char) (a : List Char)
    (hc : isJsWhitespaceChar c = false) (hd : isJsWhitespaceChar d = false) :
    jsTrimList (c :: (a ++ [d])) = c :: (a ++ [d]) := by
  unfold jsTrimList
  rw [dropWhile_cons_false _ _ _ hc]
  have hrev : (c :: (a ++ [d])).reverse = d :: (a.reverse ++ [c]) := by
    simp
  rw [hrev, dropWhile_cons_false _ _ _ hd, ← hrev, List.reverse_reverse]

theorem startsWithChars_append (p r : List Char) :
    startsWithChars p (p ++ r) = true := by
  induction p with
  | nil => rfl
  | cons c cs ih => simp [startsWithChars, ih]

/-- The introspection SQL built by `describeTable` passes the
SELECT-only gate of `query`, whatever the (validated) table name is. -/
theorem describeTable_sql_passes_gate (t : String) :
    jsStartsWith (jsToUpperCase (jsTrim
      ("SELECT * FROM table_columns('" ++ t ++ "')"))) "SELECT" = true := by
  have hdata : ("SELECT * FROM table_columns('" ++ t ++ "')").data
      = 'S' :: (("ELECT * FROM table_columns('".data ++ (t.data ++ ['\''])) ++ [')']) := by
    rw [String.data_append, String.data_append]
    simp
  unfold jsStartsWith jsToUpperCase jsTrim
  rw [hdata, jsTrimList_eq_self 'S' ')' _ (by decide) (by decide)]
  have hS : Char.toUpper 'S' = 'S' := by decide
  have hE : Char.toUpper 'E' = 'E' := by decide
  have hL : Char.toUpper 'L' = 'L' := by decide
  have hC : Char.toUpper 'C' = 'C' := by decide
  have hT : Char.toUpper 'T' = 'T' := by decide
  simp [startsWithChars, hS, hE, hL, hC, hT, List.map_cons, List.cons_append]

/-- A column call produced by the insert loop targets the key of the
field it came from. -/
theorem columnFor_key (k : String) (v : JSValue) (col : Column)
    (h : columnFor k v = some col) : col.key = k := by
  cases v <;> simp [columnFor] at h <;> try (subst h; rfl)
  case vNum n =>
    rcases h' : jsNumIsInteger n with _ | _ <;> simp [h'] at h <;> (subst h; rfl)

/-- The insert loop never emits the free-text `stringColumn` call. -/
theorem columnFor_not_stringColumn (k : String) (v : JSValue) (col : Column)
    (h : columnFor k v = some col) : col.isStringColumn = false := by
  cases v <;> simp [columnFor] at h <;> try (subst h; rfl)
  case vNum n =>
    rcases h' : jsNumIsInteger n with _ | _ <;> simp [h'] at h <;> (subst h; rfl)

theorem insertColumns_filter_nullish_aux (record : InsertRecord) :
    List.filterMap (fun kv => columnFor kv.1 kv.2)
      (List.filter (fun kv => kv.1 != "timestamp" && !isNullish kv.2) record) =
    List.filterMap (fun kv => columnFor kv.1 kv.2)
      (List.filter (fun kv => kv.1 != "timestamp") record) := by
  induction record with
  | nil => rfl
  | cons kv rest ih =>
    rcases kv with ⟨k, v⟩
    rcases hk : (k != "timestamp") with _ | _
    · simp [List.filter_cons, hk, ih]
    · rcases hnn : isNullish v with _ | _
      · simp only [List.filter_cons, hk, hnn, Bool.not_false, Bool.and_true, if_true,
          List.filterMap_cons]
        rw [ih]
      · have hcf : columnFor k v = none := by
          cases v <;> simp_all [isNullish, columnFor]
        simp only [List.filter_cons, hk, hnn, Bool.not_true, Bool.and_false, if_false, if_true,
          List.filterMap_cons, hcf]
        exact ih

/-- Nullish fields contribute nothing: deleting them from a record does
not change the emitted columns. -/
theorem insertColumns_filter_nullish (record : InsertRecord) :
    insertColumns (record.filter (fun kv => !(isNullish kv.2))) = insertColumns record := by
  rw [insertColumns, insertColumns, List.filter_filter]
  exact insertColumns_filter_nullish_aux record

/-! ## Claims -/

/-- C1: a query whose trimmed, upper-cased text does not begin with
`SELECT` is rejected by `query` before any network call (no request is
produced); a query that does begin with `SELECT` after trim
(case-insensitively) passes the safety check and a request is built. -/
theorem query_select_gate :
    ∀ (c : QuestDBConfig) (q1 q2 fmt : String),
      (jsStartsWith (jsToUpperCase (jsTrim q1)) "SELECT" = false →
        query c q1 fmt = .error "Only SELECT queries are allowed for safety reasons") ∧
      (jsStartsWith (jsToUpperCase (jsTrim q2)) "SELECT" = true →
        ∃ r, query c q2 fmt = .ok r) := by
  intro c q1 q2 fmt
  constructor
  · intro h
    simp [query, h]
  · intro h
    refine ⟨{ host := c.host, port := c.port, path := "/exec",
              queryParams := [("query", q2), ("fmt", fmt)],
              headers := requestHeaders c }, ?_⟩
    simp [query, h]

/-- Witness for C1 at concrete queries. -/
theorem query_select_gate_witness :
    (jsStartsWith (jsToUpperCase (jsTrim "DROP TABLE x")) "SELECT" = false ∧
     jsStartsWith (jsToUpperCase (jsTrim "  select 1")) "SELECT" = true) ∧
    query { host := "localhost", port := 9000 } "DROP TABLE x" "json" =
      .error "Only SELECT queries are allowed for safety reasons" ∧
    (∃ r, query { host := "localhost", port := 9000 } "  select 1" "json" = .ok r) :=
  ⟨⟨by decide, by decide⟩,
   (query_select_gate { host := "localhost", port := 9000 } "DROP TABLE x" "  select 1" "json").1
     (by decide),
   (query_select_gate { host := "localhost", port := 9000 } "DROP TABLE x" "  select 1" "json").2
     (by decide)⟩

/-- C2: a table name matching `^[A-Za-z_][A-Za-z0-9_]*$` makes
`describeTable` issue exactly one introspection query (the single
request carrying `SELECT * FROM table_columns('<table>')`); any other
name is rejected before any query is built, so no unvalidated name is
interpolated into SQL text. -/
theorem describeTable_identifier_gate :
    ∀ (c : QuestDBConfig) (table : String),
      (isValidTableName table = true →
        describeTable c table = .ok
          { host := c.host, port := c.port, path := "/exec",
            queryParams :=
              [("query", "SELECT * FROM table_columns('" ++ table ++ "')"),
               ("fmt", "json")],
            headers := requestHeaders c }) ∧
      (isValidTableName table = false →
        describeTable c table = .error ("Invalid table name: " ++ table)) := by
  intro c table
  constructor
  · intro h
    simp only [describeTable, h, Bool.not_true, Bool.false_eq_true, if_false]
    simp [query, describeTable_sql_passes_gate]
  · intro h
    simp [describeTable, h]

/-- Witness for C2 at a concrete valid and a concrete invalid name. -/
theorem describeTable_identifier_gate_witness :
    (isValidTableName "trades" = true ∧ isValidTableName "bad-name" = false) ∧
    describeTable { host := "localhost", port := 9000 } "trades" = .ok
      { host := "localhost", port := 9000, path := "/exec",
        queryParams := [("query", "SELECT * FROM table_columns('trades')"), ("fmt", "json")],
        headers := requestHeaders { host := "localhost", port := 9000 } } ∧
    describeTable { host := "localhost", port := 9000 } "bad-name" =
      .error "Invalid table name: bad-name" :=
  ⟨⟨by decide, by decide⟩,
   (describeTable_identifier_gate { host := "localhost", port := 9000 } "trades").1 (by decide),
   (describeTable_identifier_gate { host := "localhost", port := 9000 } "bad-name").2 (by decide)⟩

/-- C3: each non-nullish insert field is mapped by the fixed `typeof`
priority — string → categorical/symbol, integral number → 64-bit
integer column, non-integral number → floating column, boolean →
boolean column, anything else → stringified symbol — and the free-text
`stringColumn` call is never emitted for any record. -/
theorem insert_type_mapping :
    ∀ (record : InsertRecord) (key s o : String) (n m : JSNum) (b : Bool),
      columnFor key (.vStr s) = some (.symbol key s) ∧
      (jsNumIsInteger n = true → columnFor key (.vNum n) = some (.intColumn key n)) ∧
      (jsNumIsInteger m = false → columnFor key (.vNum m) = some (.floatColumn key m)) ∧
      columnFor key (.vBool b) = some (.booleanColumn key b) ∧
      columnFor key (.vOther o) = some (.symbol key o) ∧
      (insertColumns record).all (fun col => ! col.isStringColumn) = true := by
  intro record key s o n m b
  refine ⟨rfl, fun h => by simp [columnFor, h], fun h => by simp [columnFor, h], rfl, rfl, ?_⟩
  rw [List.all_eq_true]
  intro col hcol
  rw [insertColumns, List.mem_filterMap] at hcol
  obtain ⟨kv, _, heq⟩ := hcol
  simp [columnFor_not_stringColumn kv.1 kv.2 col heq]

/-- Witness for C3 at a concrete record and concrete numbers. -/
theorem insert_type_mapping_witness :
    (jsNumIsInteger (.fin 2) = true ∧ jsNumIsInteger (.fin (mkRat 3 2)) = false) ∧
    (columnFor "a" (.vStr "x") = some (.symbol "a" "x") ∧
      (jsNumIsInteger (.fin 2) = true →
        columnFor "a" (.vNum (.fin 2)) = some (.intColumn "a" (.fin 2))) ∧
      (jsNumIsInteger (.fin (mkRat 3 2)) = false →
        columnFor "a" (.vNum (.fin (mkRat 3 2))) = some (.floatColumn "a" (.fin (mkRat 3 2)))) ∧
      columnFor "a" (.vBool true) = some (.booleanColumn "a" true) ∧
      columnFor "a" (.vOther "[object Object]") = some (.symbol "a" "[object Object]") ∧
      (insertColumns [("a", JSValue.vStr "x"), ("b", JSValue.vNull)]).all
        (fun col => ! col.isStringColumn) = true) :=
  ⟨⟨by decide, by decide⟩,
   insert_type_mapping [("a", JSValue.vStr "x"), ("b", JSValue.vNull)]
     "a" "x" "[object Object]" (.fin 2) (.fin (mkRat 3 2)) true⟩

/-- C4 counterexample: with an unparseable `timestamp` the adapter does
not fail — the coercion step yields `NaN` and `insert` still completes
the row, closing it with `at(NaN, "ms")`. -/
theorem insert_unparseable_timestamp_completes_row :
    (insert (fun _ => none) ⟨none, 0⟩ "t" [("timestamp", JSValue.vStr "not-a-date")]).2 =
      { senderId := 0, table := "t", columns := [], closeAt := .atMs .nan } := by
  decide

/-- C4 (amended): a numeric `timestamp` is used directly as the row's
event time in milliseconds; a present non-numeric one goes through
date-parsing — parseable strings become their epoch-millisecond value,
unparseable values become `NaN`, with which the row is still closed
(no `TimestampParseError` is raised by the adapter); an absent
`timestamp` closes the row with `atNow`. -/
theorem insert_timestamp_coercion :
    ∀ (dp : JSValue → Option ℤ) (st : ClientState) (tbl : String)
      (rest rec : InsertRecord) (n : JSNum) (v v2 : JSValue) (t : ℤ),
      (insert dp st tbl (("timestamp", JSValue.vNum n) :: rest)).2.closeAt = RowClose.atMs n ∧
      (v.isNumber = false → v ≠ JSValue.vUndefined → dp v = some t →
        (insert dp st tbl (("timestamp", v) :: rest)).2.closeAt =
          RowClose.atMs (JSNum.fin (t : ℚ))) ∧
      (v2.isNumber = false → v2 ≠ JSValue.vUndefined → dp v2 = none →
        (insert dp st tbl (("timestamp", v2) :: rest)).2.closeAt = RowClose.atMs JSNum.nan) ∧
      (jsLookup rec "timestamp" = none →
        (insert dp st tbl rec).2.closeAt = RowClose.atNow) := by
  intro dp st tbl rest rec n v v2 t
  refine ⟨?_, ?_, ?_, ?_⟩
  · simp [insert, tsField, jsLookup, coerceTimestamp]
  · intro hnum hundef hdp
    cases v <;> simp_all [insert, tsField, jsLookup, coerceTimestamp, JSValue.isNumber]
  · intro hnum hundef hdp
    cases v2 <;> simp_all [insert, tsField, jsLookup, coerceTimestamp, JSValue.isNumber]
  · intro h
    simp [insert, tsField, h, coerceTimestamp]

/-- Witness for C4 at a concrete parse oracle, a parseable and an
unparseable timestamp value, and a record with no timestamp. -/
theorem insert_timestamp_coercion_witness :
    ((JSValue.vStr "1970-01-01").isNumber = false ∧
     (JSValue.vStr "1970-01-01") ≠ JSValue.vUndefined ∧
     (fun v => if v = JSValue.vStr "1970-01-01" then some (0 : ℤ) else none)
       (JSValue.vStr "1970-01-01") = some 0 ∧
     (JSValue.vStr "junk").isNumber = false ∧
     (JSValue.vStr "junk") ≠ JSValue.vUndefined ∧
     (fun v => if v = JSValue.vStr "1970-01-01" then some (0 : ℤ) else none)
       (JSValue.vStr "junk") = none ∧
     jsLookup [] "timestamp" = none) ∧
    (insert (fun v => if v = JSValue.vStr "1970-01-01" then some (0 : ℤ) else none)
        ⟨none, 0⟩ "t"
        (("timestamp", JSValue.vNum (.fin 7)) :: [])).2.closeAt = RowClose.atMs (.fin 7) ∧
    (insert (fun v => if v = JSValue.vStr "1970-01-01" then some (0 : ℤ) else none)
        ⟨none, 0⟩ "t"
        (("timestamp", JSValue.vStr "1970-01-01") :: [])).2.closeAt =
      RowClose.atMs (JSNum.fin ((0 : ℤ) : ℚ)) ∧
    (insert (fun v => if v = JSValue.vStr "1970-01-01" then some (0 : ℤ) else none)
        ⟨none, 0⟩ "t"
        (("timestamp", JSValue.vStr "junk") :: [])).2.closeAt = RowClose.atMs JSNum.nan ∧
    (insert (fun v => if v = JSValue.vStr "1970-01-01" then some (0 : ℤ) else none)
        ⟨none, 0⟩ "t" []).2.closeAt = RowClose.atNow :=
  ⟨⟨by decide, by decide, by decide, by decide, by decide, by decide, rfl⟩,
   (insert_timestamp_coercion
      (fun v => if v = JSValue.vStr "1970-01-01" then some (0 : ℤ) else none)
      ⟨none, 0⟩ "t" [] [] (.fin 7) (JSValue.vStr "1970-01-01") (JSValue.vStr "junk") 0).1,
   (insert_timestamp_coercion
      (fun v => if v = JSValue.vStr "1970-01-01" then some (0 : ℤ) else none)
      ⟨none, 0⟩ "t" [] [] (.fin 7) (JSValue.vStr "1970-01-01") (JSValue.vStr "junk") 0).2.1
     (by decide) (by decide) (by decide),
   (insert_timestamp_coercion
      (fun v => if v = JSValue.vStr "1970-01-01" then some (0 : ℤ) else none)
      ⟨none, 0⟩ "t" [] [] (.fin 7) (JSValue.vStr "1970-01-01") (JSValue.vStr "junk") 0).2.2.1
     (by decide) (by decide) (by decide),
   (insert_timestamp_coercion
      (fun v => if v = JSValue.vStr "1970-01-01" then some (0 : ℤ) else none)
      ⟨none, 0⟩ "t" [] [] (.fin 7) (JSValue.vStr "1970-01-01") (JSValue.vStr "junk") 0).2.2.2
     rfl⟩

/-- C5: every column the insert row builder receives targets a key
other than `timestamp` (the reserved key is removed before the row is
built), and nullish fields are skipped — removing the `null`/
`undefined` entries of a record leaves the emitted columns unchanged,
and a `timestamp` entry contributes no column whatever its value. -/
theorem insert_skips_nullish_and_timestamp :
    ∀ (record : InsertRecord) (w : JSValue),
      (insertColumns record).all (fun col => col.key != "timestamp") = true ∧
      insertColumns (record.filter (fun kv => !(isNullish kv.2))) = insertColumns record ∧
      insertColumns (("timestamp", w) :: record) = insertColumns record := by
  intro record w
  refine ⟨?_, insertColumns_filter_nullish record, ?_⟩
  · rw [List.all_eq_true]
    intro col hcol
    rw [insertColumns, List.mem_filterMap] at hcol
    obtain ⟨kv, hmem, heq⟩ := hcol
    rw [List.mem_filter] at hmem
    have hk := columnFor_key kv.1 kv.2 col heq
    simp only [bne_iff_ne, ne_eq, hk]
    intro hcontra
    rw [hcontra] at hmem
    simp at hmem
  · simp [insertColumns]

/-- C6: `listTables` returns the empty sequence whenever the parsed
result carries no array under `dataset` (absent, nullish, or any
non-array value), and otherwise projects the first cell of every row,
preserving order and length; the projection is total, so no shape
mismatch can throw. -/
theorem listTables_dataset_shape :
    ∀ (r : JSON) (fields : List (String × JSON)) (rows : List JSON),
      (isArrayB (getField r "dataset") = false → listTablesProject r = []) ∧
      (getField (JSON.obj fields) "dataset" = JSON.arr rows →
        listTablesProject (JSON.obj fields) = rows.map (fun row => jsIndex row 0) ∧
        (listTablesProject (JSON.obj fields)).length = rows.length) := by
  intro r fields rows
  constructor
  · intro h
    unfold listTablesProject
    rcases htr : jsTruthy r with _ | _
    · simp [htr]
    · simp only [htr, if_true]
      rcases hds : getField r "dataset" with _ | _ | b | nq | s | elems | flds <;>
        simp_all [isArrayB, jsTruthy]
  · intro h
    simp [listTablesProject, h, jsTruthy]

/-- Witness for C6 at a non-object result and at a result with a
two-row dataset. -/
theorem listTables_dataset_shape_witness :
    (isArrayB (getField (JSON.num 3) "dataset") = false ∧
     getField (JSON.obj [("dataset", JSON.arr [JSON.arr [JSON.str "a"], JSON.arr [JSON.str "b"]])])
       "dataset" = JSON.arr [JSON.arr [JSON.str "a"], JSON.arr [JSON.str "b"]]) ∧
    listTablesProject (JSON.num 3) = [] ∧
    (listTablesProject
        (JSON.obj [("dataset", JSON.arr [JSON.arr [JSON.str "a"], JSON.arr [JSON.str "b"]])]) =
      [JSON.str "a", JSON.str "b"] ∧
     (listTablesProject
        (JSON.obj [("dataset", JSON.arr [JSON.arr [JSON.str "a"], JSON.arr [JSON.str "b"]])])).length
       = 2) :=
  ⟨⟨rfl, rfl⟩,
   (listTables_dataset_shape (JSON.num 3)
      [("dataset", JSON.arr [JSON.arr [JSON.str "a"], JSON.arr [JSON.str "b"]])]
      [JSON.arr [JSON.str "a"], JSON.arr [JSON.str "b"]]).1 rfl,
   (listTables_dataset_shape (JSON.num 3)
      [("dataset", JSON.arr [JSON.arr [JSON.str "a"], JSON.arr [JSON.str "b"]])]
      [JSON.arr [JSON.str "a"], JSON.arr [JSON.str "b"]]).2 rfl⟩

/-- C7: every adapter error reaching a tool handler is converted to the
uniform error envelope — a text body `Error: <message>`, no structured
content, `isError: true` — by each of the four handlers; the handlers
are total (no error is re-thrown), and each call maps one outcome to
one response (no retry, no partial success). -/
theorem tool_handlers_error_envelope :
    ∀ (msg q tbl : String) (format : Option String),
      (queryToolCall q format (.error msg)).2 =
        { content := .raw ("Error: " ++ msg), structuredContent := none, isError := true } ∧
      insertToolCall tbl (.error msg) =
        { content := .raw ("Error: " ++ msg), structuredContent := none, isError := true } ∧
      listTablesToolCall (.error msg) =
        { content := .raw ("Error: " ++ msg), structuredContent := none, isError := true } ∧
      describeTableToolCall tbl (.error msg) =
        { content := .raw ("Error: " ++ msg), structuredContent := none, isError := true } := by
  intro msg q tbl format
  exact ⟨rfl, rfl, rfl, rfl⟩

/-- C8: `close` never propagates an error, always leaves the sender
reference absent (even when the external flush/close fails — both
oracle outcomes give the same state), a second `close` is a no-op on
the resulting state, and a subsequent `getSender` (as performed by
`insert`) creates a fresh sender. -/
theorem close_idempotent_resets_sender :
    ∀ (st : ClientState) (o1 o2 : Except String Unit),
      ∃ st', close o1 st = .ok st' ∧ st'.sender = none ∧ close o2 st' = .ok st' ∧
        (getSender st').1 = st'.nextId ∧
        (getSender st').2 = { sender := some st'.nextId, nextId := st'.nextId + 1 } := by
  intro st o1 o2
  rcases st with ⟨sender, nextId⟩
  cases sender with
  | none =>
    exact ⟨⟨none, nextId⟩, rfl, rfl, rfl, rfl, rfl⟩
  | some s =>
    refine ⟨⟨none, nextId⟩, ?_, rfl, rfl, rfl, rfl⟩
    cases o1 <;> rfl

/-- C9 counterexample: a result with `count: 0` and a one-row dataset —
the handler's structured `count` is `1` (the dataset length), not the
result's `count` field `0`, because the JS `||` fallback also fires on
a present-but-zero count. -/
theorem queryTool_count_zero_counterexample :
    (queryToolCall "SELECT 1" none
        (.ok (JSON.obj [("count", JSON.num 0),
                        ("dataset", JSON.arr [JSON.arr [JSON.str "x"]])]))).2.structuredContent =
      some [("query", .str "SELECT 1"), ("dataset", .arr [.arr [.str "x"]]),
            ("count", .num 1), ("columns", .arr [])] ∧
    getField (JSON.obj [("count", JSON.num 0),
                        ("dataset", JSON.arr [JSON.arr [JSON.str "x"]])]) "count" = JSON.num 0 ∧
    JSON.num 1 ≠ JSON.num 0 := by
  refine ⟨rfl, rfl, ?_⟩
  simp

/-- C9 (amended): with `format` omitted the query tool passes `"json"`
to the adapter and shapes `{query, dataset, count, columns}` with the
input query echoed; `count` equals the result's `count` field when that
field is truthy, and falls back to the dataset's length when `count` is
absent or otherwise falsy (for example `0`). -/
theorem queryTool_json_output :
    ∀ (q : String) (c : JSON) (rows : List JSON),
      (queryToolCall q none (.ok (JSON.obj [("count", c), ("dataset", JSON.arr rows)]))).1
        = "json" ∧
      (queryToolCall q none
          (.ok (JSON.obj [("count", c), ("dataset", JSON.arr rows)]))).2.structuredContent =
        some [("query", .str q), ("dataset", .arr rows),
              ("count", if jsTruthy c then c else .num rows.length),
              ("columns", .arr [])] ∧
      (queryToolCall q none (.ok (JSON.obj [("dataset", JSON.arr rows)]))).2.structuredContent =
        some [("query", .str q), ("dataset", .arr rows), ("count", .num rows.length),
              ("columns", .arr [])] := by
  intro q c rows
  have hlen : jsOr (JSON.num rows.length) (JSON.num 0) = JSON.num rows.length := by
    rcases rows with _ | ⟨r0, rs⟩
    · rfl
    · have hne : ((rs.length : ℚ) + 1) ≠ 0 := by positivity
      simp only [jsOr, jsTruthy, List.length_cons, Nat.cast_add, Nat.cast_one]
      simp [bne_iff_ne, hne]
  refine ⟨rfl, ?_, ?_⟩
  · have key : (queryToolCall q none
        (.ok (JSON.obj [("count", c), ("dataset", JSON.arr rows)]))).2.structuredContent =
        some (queryStructuredOutput q (JSON.obj [("count", c), ("dataset", JSON.arr rows)])) :=
      rfl
    rw [key]
    have h1 : getField (JSON.obj [("count", c), ("dataset", JSON.arr rows)]) "count" = c := rfl
    have h2 : getField (JSON.obj [("count", c), ("dataset", JSON.arr rows)]) "dataset" =
        JSON.arr rows := rfl
    have h3 : getField (JSON.obj [("count", c), ("dataset", JSON.arr rows)]) "columns" =
        JSON.undefined := rfl
    rw [queryStructuredOutput, h1, h2, h3]
    have hds : jsOr (JSON.arr rows) (JSON.arr []) = JSON.arr rows := rfl
    have hcols : jsOr JSON.undefined (JSON.arr []) = JSON.arr [] := rfl
    have hchain : jsOptChainLength (JSON.arr rows) = JSON.num rows.length := rfl
    rw [hds, hcols, hchain]
    have hcount : jsOr c (jsOr (JSON.num rows.length) (JSON.num 0)) =
        if jsTruthy c then c else JSON.num rows.length := by
      rw [jsOr, hlen]
    rw [hcount]
  · have key : (queryToolCall q none
        (.ok (JSON.obj [("dataset", JSON.arr rows)]))).2.structuredContent =
        some (queryStructuredOutput q (JSON.obj [("dataset", JSON.arr rows)])) := rfl
    rw [key]
    have h1 : getField (JSON.obj [("dataset", JSON.arr rows)]) "count" = JSON.undefined := rfl
    have h2 : getField (JSON.obj [("dataset", JSON.arr rows)]) "dataset" = JSON.arr rows := rfl
    have h3 : getField (JSON.obj [("dataset", JSON.arr rows)]) "columns" = JSON.undefined := rfl
    rw [queryStructuredOutput, h1, h2, h3]
    have hcount : jsOr JSON.undefined (jsOr (JSON.num rows.length) (JSON.num 0)) =
        JSON.num rows.length := by
      rw [show jsOr JSON.undefined (jsOr (JSON.num (rows.length : ℚ)) (JSON.num 0)) =
        jsOr (JSON.num (rows.length : ℚ)) (JSON.num 0) from rfl, hlen]
    rw [show jsOptChainLength (JSON.arr rows) = JSON.num rows.length from rfl, hcount]
    rfl

/-- C10: credentials are applied only when both username and password
are truthy — otherwise `query`'s GET carries no `Authorization` header
and the connection string is the same as with no credentials at all;
with both present and non-empty, the GET carries the Basic header for
`username:password` and the connection string includes both
parameters. -/
theorem credentials_gating :
    ∀ (c c2 : QuestDBConfig) (u p q f q2 f2 : String) (r r2 : HttpRequest),
      ((jsTruthyStrOpt c.username && jsTruthyStrOpt c.password) = false →
        authHeaderOf c = none ∧
        buildConfigString c = buildConfigString { c with username := none, password := none } ∧
        (query c q f = .ok r → r.headers = [])) ∧
      (c2.username = some u → u ≠ "" → c2.password = some p → p ≠ "" →
        authHeaderOf c2 = some ("Basic " ++ base64Encode (u ++ ":" ++ p)) ∧
        buildConfigString c2 =
          "http::addr=" ++ c2.host ++ ":" ++ toString c2.port ++
            ";username=" ++ u ++ ";password=" ++ p ++ flushSuffix c2 ∧
        (query c2 q2 f2 = .ok r2 →
          r2.headers = [("Authorization", "Basic " ++ base64Encode (u ++ ":" ++ p))])) := by
  intro c c2 u p q f q2 f2 r r2
  have hnone : jsTruthyStrOpt (none : Option String) = false := rfl
  constructor
  · intro h
    have hauth : authHeaderOf c = none := by
      simp [authHeaderOf, h]
    refine ⟨hauth, ?_, ?_⟩
    · simp [buildConfigString, h, hnone]
    · intro hq
      rw [query] at hq
      split at hq
      · exact absurd hq (by simp)
      · cases hq
        simp [requestHeaders, hauth]
  · intro hu hune hp hpne
    have htu : jsTruthyStrOpt (some u) = true := by
      simp [jsTruthyStrOpt, hune]
    have htp : jsTruthyStrOpt (some p) = true := by
      simp [jsTruthyStrOpt, hpne]
    have hauth : authHeaderOf c2 = some ("Basic " ++ base64Encode (u ++ ":" ++ p)) := by
      simp [authHeaderOf, hu, hp, htu, htp]
    refine ⟨hauth, ?_, ?_⟩
    · rw [buildConfigString, flushSuffix]
      rcases h1 : jsTruthyNatOpt c2.autoFlushRows with _ | _ <;>
        rcases h2 : jsTruthyNatOpt c2.autoFlushInterval with _ | _ <;>
          simp [h1, h2, hu, hp, htu, htp, String.append_assoc]
    · intro hq
      rw [query] at hq
      split at hq
      · exact absurd hq (by simp)
      · cases hq
        simp [requestHeaders, hauth]

/-- Witness for C10 at a credential-free and a fully-credentialed
configuration, with a concrete accepted query for each. -/
theorem credentials_gating_witness :
    ((jsTruthyStrOpt (QuestDBConfig.mk "h" 9000 none none none none).username &&
        jsTruthyStrOpt (QuestDBConfig.mk "h" 9000 none none none none).password) = false ∧
     (QuestDBConfig.mk "h" 9000 (some "u") (some "p") none none).username = some "u" ∧
     "u" ≠ "" ∧
     (QuestDBConfig.mk "h" 9000 (some "u") (some "p") none none).password = some "p" ∧
     "p" ≠ "") ∧
    (authHeaderOf (QuestDBConfig.mk "h" 9000 none none none none) = none ∧
     (query (QuestDBConfig.mk "h" 9000 none none none none) "SELECT 1" "json" =
        .ok (HttpRequest.mk "h" 9000 "/exec" [("query", "SELECT 1"), ("fmt", "json")] []) →
       (HttpRequest.mk "h" 9000 "/exec" [("query", "SELECT 1"), ("fmt", "json")] []).headers
         = [])) ∧
    (authHeaderOf (QuestDBConfig.mk "h" 9000 (some "u") (some "p") none none) =
       some ("Basic " ++ base64Encode ("u" ++ ":" ++ "p")) ∧
     query (QuestDBConfig.mk "h" 9000 (some "u") (some "p") none none) "SELECT 1" "json" =
       .ok (HttpRequest.mk "h" 9000 "/exec" [("query", "SELECT 1"), ("fmt", "json")]
         [("Authorization", "Basic " ++ base64Encode ("u" ++ ":" ++ "p"))])) :=
  ⟨⟨rfl, rfl, by decide, rfl, by decide⟩,
   ⟨((credentials_gating (QuestDBConfig.mk "h" 9000 none none none none)
        (QuestDBConfig.mk "h" 9000 (some "u") (some "p") none none)
        "u" "p" "SELECT 1" "json" "SELECT 1" "json"
        (HttpRequest.mk "h" 9000 "/exec" [("query", "SELECT 1"), ("fmt", "json")] [])
        (HttpRequest.mk "h" 9000 "/exec" [("query", "SELECT 1"), ("fmt", "json")]
          [("Authorization", "Basic " ++ base64Encode ("u" ++ ":" ++ "p"))])).1 rfl).1,
    ((credentials_gating (QuestDBConfig.mk "h" 9000 none none none none)
        (QuestDBConfig.mk "h" 9000 (some "u") (some "p") none none)
        "u" "p" "SELECT 1" "json" "SELECT 1" "json"
        (HttpRequest.mk "h" 9000 "/exec" [("query", "SELECT 1"), ("fmt", "json")] [])
        (HttpRequest.mk "h" 9000 "/exec" [("query", "SELECT 1"), ("fmt", "json")]
          [("Authorization", "Basic " ++ base64Encode ("u" ++ ":" ++ "p"))])).1 rfl).2.2⟩,
   ⟨((credentials_gating (QuestDBConfig.mk "h" 9000 none none none none)
        (QuestDBConfig.mk "h" 9000 (some "u") (some "p") none none)
        "u" "p" "SELECT 1" "json" "SELECT 1" "json"
        (HttpRequest.mk "h" 9000 "/exec" [("query", "SELECT 1"), ("fmt", "json")] [])
        (HttpRequest.mk "h" 9000 "/exec" [("query", "SELECT 1"), ("fmt", "json")]
          [("Authorization", "Basic " ++ base64Encode ("u" ++ ":" ++ "p"))])).2
        rfl (by decide) rfl (by decide)).1,
    rfl⟩⟩

end QuestDBMCP
